import Mathlib

/-!
Verification of the reconciliation and safety subsystem of the
`vjranagit/cluster-api` repository, shallowly embedded in Lean 4.

The embedding mirrors the Go sources:
  * `pkg/api/types.go`       — resource data model,
  * `pkg/planner/planner.go` — `GeneratePlan`,
  * `pkg/engine/provider.go` — `Apply` / `executeAction` / registry,
  * `pkg/drift/detector.go`  — `DetectDrift` / `Remediate`,
  * `pkg/snapshot/manager.go`— snapshot create/load/restore/prune and the
                               length-based checksum.

Go `map[string]*T` values are embedded as association lists
`List (String × T)`; `mapGet` mirrors Go map indexing (first matching
key).  Go map iteration order is unspecified, so universally quantified
theorems range over every association-list order, and concrete
counterexamples use at most one relevant entry per map so that the
iteration order cannot matter.  Go `int` fields used by this subsystem
only ever hold small non-negative values and are only compared for
equality or order, so they are embedded as `Nat`.
-/

set_option maxRecDepth 16384

namespace ClusterApi

/-- Go map indexing `m[k]` for an association-list map: the value of the
first entry whose key equals `k`, or `none` (Go: zero value / `ok=false`). -/
def mapGet (k : String) : List (String × α) → Option α
  | [] => none
  | (k', v) :: rest => if k' == k then some v else mapGet k rest

/-! ## Data model (`pkg/api/types.go`, `pkg/engine/provider.go`)

Only the fields read by the planner, engine, drift detector and snapshot
manager are carried; the remaining fields of the Go structs are never
assigned anywhere in the repository and stay at their zero values, so the
JSON serializer below renders them as fixed zero-value text. -/

/-- `api.WorkerPoolSpec` (fields used: Name, InstanceType, MinSize,
MaxSize, DesiredSize). -/
structure WorkerPoolSpec where
  name : String
  instanceType : String
  minSize : Nat
  maxSize : Nat
  desiredSize : Nat
deriving DecidableEq, Repr

/-- `api.ControlPlaneSpec` (field used: Version). -/
structure ControlPlaneSpec where
  version : String
deriving DecidableEq, Repr

/-- `api.ResourceMetadata` (field used: Name). -/
structure ResourceMetadata where
  name : String
deriving DecidableEq, Repr

/-- `api.ClusterSpec` (fields used: Provider, ControlPlane, WorkerPools). -/
structure ClusterSpec where
  provider : String
  controlPlane : ControlPlaneSpec
  workerPools : List WorkerPoolSpec
deriving DecidableEq, Repr

/-- `api.Cluster = api.Resource[ClusterSpec]` (fields used: ID, Metadata, Spec). -/
structure Cluster where
  id : String
  metadata : ResourceMetadata
  spec : ClusterSpec
deriving DecidableEq, Repr

/-- `api.NodePool = api.Resource[WorkerPoolSpec]`. -/
structure NodePool where
  id : String
  metadata : ResourceMetadata
  spec : WorkerPoolSpec
deriving DecidableEq, Repr

/-- `api.ResourceID`. -/
structure ResourceID where
  provider : String
  kind : String
  id : String
  name : String
deriving DecidableEq, Repr

/-- `engine.State`.  The `Networks` and `Metadata` maps of the Go struct are
never populated anywhere in the repository, so they are not carried here;
the JSON serializer renders them as constant text. -/
structure State where
  clusters : List (String × Cluster)
  nodePools : List (String × NodePool)
deriving DecidableEq, Repr

/-- `engine.ActionType`. -/
inductive ActionType where
  | create
  | update
  | delete
  | noop
deriving DecidableEq, Repr

/-- A value stored in an action's / event's generic
`map[string]interface{}` payload: the repository only ever stores resource
specs there (`planner.go` puts `cluster.Spec` / `pool.Spec` under key
`"spec"`). -/
inductive ParamVal where
  | clusterSpec (s : ClusterSpec)
  | poolSpec (s : WorkerPoolSpec)
deriving DecidableEq, Repr

/-- `engine.Action`. -/
structure Action where
  type : ActionType
  resource : ResourceID
  parameters : List (String × ParamVal)
deriving DecidableEq, Repr

/-- `engine.Plan`. -/
structure Plan where
  actions : List Action
deriving DecidableEq, Repr

/-! ## Planner (`pkg/planner/planner.go`) -/

/-- `planner.needsUpdate`: compares control-plane versions only. -/
def needsUpdate (desired actual : Cluster) : Bool :=
  desired.spec.controlPlane.version != actual.spec.controlPlane.version

/-- First loop of `GeneratePlan`: clusters in `desired` absent from
`actual` become Create actions. -/
def clusterCreateActions (desired actual : State) : List Action :=
  desired.clusters.filterMap fun p =>
    match mapGet p.1 actual.clusters with
    | some _ => none
    | none => some
        { type := .create
          resource :=
            { provider := p.2.spec.provider, kind := "Cluster"
              id := p.1, name := p.2.metadata.name }
          parameters := [("spec", .clusterSpec p.2.spec)] }

/-- Second loop of `GeneratePlan`: clusters in both states with
`needsUpdate` become Update actions. -/
def clusterUpdateActions (desired actual : State) : List Action :=
  desired.clusters.filterMap fun p =>
    match mapGet p.1 actual.clusters with
    | some actualCluster =>
      if needsUpdate p.2 actualCluster then
        some
          { type := .update
            resource :=
              { provider := p.2.spec.provider, kind := "Cluster"
                id := p.1, name := p.2.metadata.name }
            parameters := [("spec", .clusterSpec p.2.spec)] }
      else none
    | none => none

/-- Third loop of `GeneratePlan`: clusters in `actual` absent from
`desired` become Delete actions (no parameters are attached). -/
def clusterDeleteActions (desired actual : State) : List Action :=
  actual.clusters.filterMap fun p =>
    match mapGet p.1 desired.clusters with
    | some _ => none
    | none => some
        { type := .delete
          resource :=
            { provider := p.2.spec.provider, kind := "Cluster"
              id := p.1, name := p.2.metadata.name }
          parameters := [] }

/-- Fourth loop of `GeneratePlan` ("Similar logic for node pools"): node
pools in `desired` absent from `actual` become Create actions; the source
sets no `Provider` on the resource id, and emits no Update or Delete
actions for node pools. -/
def nodePoolCreateActions (desired actual : State) : List Action :=
  desired.nodePools.filterMap fun p =>
    match mapGet p.1 actual.nodePools with
    | some _ => none
    | none => some
        { type := .create
          resource :=
            { provider := "", kind := "NodePool"
              id := p.1, name := p.2.metadata.name }
          parameters := [("spec", .poolSpec p.2.spec)] }

/-- The action list built by `planner.GeneratePlan`, in the order the
source appends: cluster creates, cluster updates, cluster deletes, node
pool creates. -/
def generatePlanActions (desired actual : State) : List Action :=
  clusterCreateActions desired actual ++ clusterUpdateActions desired actual
    ++ clusterDeleteActions desired actual ++ nodePoolCreateActions desired actual

/-- `planner.GeneratePlan`: always returns `nil` error. -/
def generatePlan (desired actual : State) : Except String Plan :=
  .ok { actions := generatePlanActions desired actual }

/-! ## Reconciliation engine (`pkg/engine/provider.go`)

The engine's provider registry `map[string]CloudProvider` is embedded as
the list of registered provider names: `Apply` only ever uses a provider
value through the nil check in `executeAction` (the kind-specific
`executeCreate`/`executeUpdate`/`executeDelete` bodies all return `nil`),
so the names are all that matters.  The `EventStore` collaborator is an
interface; it is embedded as an arbitrary function from the event to the
error `RecordEvent` returns.  The state transaction is begun on entry and
rolled back by `defer` unless the final `tx.Commit()` runs, which the
embedding records in the `committed` flag (the deferred `Rollback` after a
successful `Commit` has no further effect). -/

/-- `engine.EngineError`. -/
structure EngineError where
  code : String
  message : String
deriving DecidableEq, Repr

/-- `engine.ErrProviderNotFound`. -/
def errProviderNotFound : EngineError :=
  { code := "PROVIDER_NOT_FOUND", message := "provider not found" }

/-- `api.EventType` (the `toEventType` default maps unknown action types
to the empty-string event type). -/
inductive EventType where
  | created
  | updated
  | deleted
  | failed
  | emptyType
deriving DecidableEq, Repr

/-- `engine.toEventType`. -/
def toEventType : ActionType → EventType
  | .create => .created
  | .update => .updated
  | .delete => .deleted
  | .noop => .emptyType

/-- `api.Event` as constructed in `Apply` (ID, Timestamp and Actor are
left at their zero values there). -/
structure Event where
  type : EventType
  resource : ResourceID
  payload : List (String × ParamVal)
deriving DecidableEq, Repr

/-- The event `Apply` constructs for a dispatched action. -/
def mkEvent (a : Action) : Event :=
  { type := toEventType a.type, resource := a.resource, payload := a.parameters }

/-- `engine.executeAction`: `GetProvider` returns the map entry, `nil` on
a miss, which is the only error source (every dispatch branch of the
switch returns `nil`). -/
def executeAction (registered : List String) (a : Action) : Option EngineError :=
  if registered.contains a.resource.provider then none else some errProviderNotFound

/-- Outcome of one `engine.Apply` run: the actions whose `executeAction`
dispatch succeeded, the events successfully recorded, whether the state
transaction was committed (vs. rolled back by the deferred `Rollback`),
and the returned error. -/
structure ApplyResult where
  executed : List Action
  events : List Event
  committed : Bool
  err : Option EngineError
deriving DecidableEq, Repr

/-- `engine.Apply`: for each action in order, dispatch `executeAction`
(first error returned immediately, transaction rolled back), then record
the audit event (first record error likewise aborts); `tx.Commit()` runs
only when the loop finishes. -/
def applyGo (registered : List String) (record : Event → Option EngineError) :
    List Action → ApplyResult
  | [] => { executed := [], events := [], committed := true, err := none }
  | a :: rest =>
    match executeAction registered a with
    | some e => { executed := [], events := [], committed := false, err := some e }
    | none =>
      let ev := mkEvent a
      match record ev with
      | some e => { executed := [a], events := [], committed := false, err := some e }
      | none =>
        let r := applyGo registered record rest
        { executed := a :: r.executed, events := ev :: r.events
          committed := r.committed, err := r.err }

/-- An action both dispatches and has its audit event recorded without
error under the given registry and event store. -/
@[reducible]
def actionOk (registered : List String) (record : Event → Option EngineError)
    (a : Action) : Prop :=
  executeAction registered a = none ∧ record (mkEvent a) = none

/-! ## Drift detector (`pkg/drift/detector.go`) -/

/-- `drift.DriftType`. -/
inductive DriftType where
  | configChange
  | versionSkew
  | scaleChange
  | networkChange
  | securityChange
  | resourceDeleted
  | resourceAdded
deriving DecidableEq, Repr

/-- `drift.Severity`. -/
inductive Severity where
  | critical
  | high
  | medium
  | low
deriving DecidableEq, Repr

/-- A value stored in a drift's `Expected`/`Actual` `interface{}` fields:
the detector only ever stores strings or the integer desired sizes. -/
inductive DriftVal where
  | s (v : String)
  | n (v : Nat)
deriving DecidableEq, Repr

/-- `drift.ResourceDrift`. -/
structure ResourceDrift where
  resource : ResourceID
  driftType : DriftType
  field : String
  expected : DriftVal
  actual : DriftVal
  severity : Severity
  remediatable : Bool
deriving DecidableEq, Repr

/-- `drift.DriftSummary`. -/
structure DriftSummary where
  totalDrifts : Nat
  criticalCount : Nat
  highCount : Nat
  mediumCount : Nat
  lowCount : Nat
  remediableCount : Nat
deriving DecidableEq, Repr

/-- `drift.DriftReport` (DetectedAt is supplied as a parameter below). -/
structure DriftReport where
  detectedAt : Nat
  hasDrift : Bool
  drifts : List ResourceDrift
  summary : DriftSummary
deriving DecidableEq, Repr

/-- The worker-pool comparison inside `DetectDrift` (lines 143-186): for
each desired pool, every same-named live pool with a different
`DesiredSize` yields a medium `scale_change` drift, and a desired pool
with no same-named live pool yields a high `resource_deleted` drift. -/
def poolDrifts (providerName clusterID : String)
    (desiredPools actualPools : List WorkerPoolSpec) : List ResourceDrift :=
  desiredPools.flatMap fun dp =>
    let found := actualPools.any fun ap => dp.name == ap.name
    let scales := actualPools.filterMap fun ap =>
      if dp.name == ap.name && dp.desiredSize != ap.desiredSize then
        some
          { resource :=
              { provider := providerName, kind := "NodePool"
                id := clusterID ++ "/" ++ dp.name, name := dp.name }
            driftType := .scaleChange, field := "desiredSize"
            expected := .n dp.desiredSize, actual := .n ap.desiredSize
            severity := .medium, remediatable := true }
      else none
    scales ++
      (if found then []
       else
         [{ resource :=
              { provider := providerName, kind := "NodePool"
                id := clusterID ++ "/" ++ dp.name, name := dp.name }
            driftType := .resourceDeleted, field := "nodePool"
            expected := .s "exists", actual := .s "deleted"
            severity := .high, remediatable := true }])

/-- The per-provider cluster comparison inside `DetectDrift`
(lines 100-187): desired clusters of this provider absent from the live
state yield a critical `resource_deleted` drift; present ones with a
control-plane version mismatch yield a high `version_skew` drift on field
`"controlPlane.version"`, followed by the worker-pool comparison. -/
def clusterDriftsFor (providerName : String) (desired live : State) :
    List ResourceDrift :=
  desired.clusters.flatMap fun p =>
    if p.2.spec.provider != providerName then []
    else
      match mapGet p.1 live.clusters with
      | none =>
        [{ resource :=
             { provider := providerName, kind := "Cluster"
               id := p.1, name := p.2.metadata.name }
           driftType := .resourceDeleted, field := "cluster"
           expected := .s "exists", actual := .s "deleted"
           severity := .critical, remediatable := true }]
      | some actualCluster =>
        (if p.2.spec.controlPlane.version != actualCluster.spec.controlPlane.version then
           [{ resource :=
                { provider := providerName, kind := "Cluster"
                  id := p.1, name := p.2.metadata.name }
              driftType := .versionSkew, field := "controlPlane.version"
              expected := .s p.2.spec.controlPlane.version
              actual := .s actualCluster.spec.controlPlane.version
              severity := .high, remediatable := true }]
         else [])
          ++ poolDrifts providerName p.1 p.2.spec.workerPools
              actualCluster.spec.workerPools

/-- A provider as the detector uses it: the result of the provider's
`Reconcile` call, which the detector reads as the live actual state. -/
structure DriftProvider where
  reconcileLive : State → Except String State

/-- `drift.(*DriftDetector).getAllProviders`, translated from the source:
the body allocates a fresh empty map and returns it without inserting any
registered provider (the comment says a real implementation would iterate
`engine.providers`). -/
def getAllProviders : List (String × DriftProvider) := []

/-- The summary aggregation at the end of `DetectDrift` (lines 190-207). -/
def computeSummary (drifts : List ResourceDrift) : DriftSummary :=
  let base := drifts.foldl
    (fun (acc : DriftSummary) d =>
      let acc :=
        match d.severity with
        | .critical => { acc with criticalCount := acc.criticalCount + 1 }
        | .high => { acc with highCount := acc.highCount + 1 }
        | .medium => { acc with mediumCount := acc.mediumCount + 1 }
        | .low => { acc with lowCount := acc.lowCount + 1 }
      if d.remediatable then { acc with remediableCount := acc.remediableCount + 1 }
      else acc)
    { totalDrifts := 0, criticalCount := 0, highCount := 0, mediumCount := 0
      lowCount := 0, remediableCount := 0 }
  { base with totalDrifts := drifts.length }

/-- `drift.(*DriftDetector).DetectDrift`: loops over `getAllProviders`
(querying each provider's live state, skipping providers whose query
errors), accumulates the comparison drifts, then sets
`hasDrift = len(drifts) > 0` and the summary.  The returned error is
always `nil`. -/
def detectDrift (now : Nat) (desired : State) : DriftReport :=
  let drifts := getAllProviders.foldl
    (fun acc pv =>
      match pv.2.reconcileLive desired with
      | .error _ => acc
      | .ok live => acc ++ clusterDriftsFor pv.1 desired live)
    []
  { detectedAt := now, hasDrift := decide (0 < drifts.length)
    drifts := drifts, summary := computeSummary drifts }

/-- `drift.(*DriftDetector).remediateDrift`: unregistered provider or a
drift type outside {resource_deleted, version_skew, scale_change} is an
error; the three supported branches succeed. -/
def remediateDrift (registered : List String) (d : ResourceDrift) :
    Option String :=
  if registered.contains d.resource.provider then
    match d.driftType with
    | .resourceDeleted => none
    | .versionSkew => none
    | .scaleChange => none
    | _ => some "unsupported drift type"
  else some ("provider " ++ d.resource.provider ++ " not found")

/-- Outcome of one `drift.Remediate` run: the number of items remediated,
the items whose remediation errored (the source logs each at line 236 and
continues; it exposes them to the caller in no other way), and the value
`Remediate` returns. -/
structure RemediateRun where
  remediated : Nat
  failedItems : List ResourceDrift
  result : Option String
deriving DecidableEq, Repr

/-- Loop of `drift.(*DriftDetector).Remediate`: non-remediatable items are
skipped, a failing `remediateDrift` is logged and skipped, successes are
counted; the function returns `nil` unconditionally. -/
def remediateLoop (registered : List String) :
    List ResourceDrift → Nat → List ResourceDrift → RemediateRun
  | [], count, failed =>
    { remediated := count, failedItems := failed.reverse, result := none }
  | d :: rest, count, failed =>
    if d.remediatable then
      match remediateDrift registered d with
      | some _ => remediateLoop registered rest count (d :: failed)
      | none => remediateLoop registered rest (count + 1) failed
    else remediateLoop registered rest count failed

/-- `drift.(*DriftDetector).Remediate`. -/
def remediateGo (registered : List String) (report : DriftReport) : RemediateRun :=
  remediateLoop registered report.drifts 0 []

/-! ## JSON serialization and the checksum (`pkg/snapshot/manager.go`)

`calculateChecksum` hashes nothing: it formats `len(json.Marshal(state))`
in lowercase hex.  The serializer below reproduces `encoding/json` on the
embedded `State`: struct fields in declaration order under their tag
names, maps as objects with keys in ascending order (`null` when the map
is nil, which is how every state literal in this repository leaves its
empty maps), nil slices as `null`, `omitempty` fields dropped at their
zero value.  The Go struct fields not carried by the embedding
(`Region`, `NetworkSpec`, status, timestamps, ...) are never assigned in
the repository, so they serialize to the fixed zero-value text inlined
below. -/

/-- JSON string quoting (escapes the quote and backslash; the states in
this development contain no characters needing further escaping). -/
def jsonEscape (s : String) : String :=
  String.join (s.data.map fun c =>
    if c = '"' then "\\\"" else if c = '\\' then "\\\\" else String.singleton c)

/-- A JSON string literal. -/
def jsonStr (s : String) : String :=
  "\"" ++ jsonEscape s ++ "\""

/-- Insertion step for `sortBy`. -/
def insertBy (le : α → α → Bool) (x : α) : List α → List α
  | [] => [x]
  | y :: ys => if le x y then x :: y :: ys else y :: insertBy le x ys

/-- Insertion sort; models the sorting Go performs (JSON map keys
ascending; `sort.Slice` in `ListSnapshots`, evaluated only at distinct
keys where any correct sort agrees). -/
def sortBy (le : α → α → Bool) : List α → List α :=
  List.foldr (insertBy le) []

/-- `encoding/json` rendering of a `map[string]T` given the already
rendered values: keys in ascending byte order; a nil map is `null`. -/
def jsonMapRaw (entries : List (String × String)) : String :=
  match entries with
  | [] => "null"
  | _ =>
    "\x7b" ++
      String.intercalate ","
        ((sortBy (fun a b => a.1 < b.1) entries).map fun p =>
          jsonStr p.1 ++ ":" ++ p.2) ++
      "\x7d"

/-- `api.WorkerPoolSpec` JSON: `desiredSize` carries `omitempty` and is
dropped at 0; `spot`, `labels`, `taints`, `config` are `omitempty` and
never assigned. -/
def jsonWorkerPool (p : WorkerPoolSpec) : String :=
  "\x7b\"name\":" ++ jsonStr p.name
    ++ ",\"instanceType\":" ++ jsonStr p.instanceType
    ++ ",\"minSize\":" ++ toString p.minSize
    ++ ",\"maxSize\":" ++ toString p.maxSize
    ++ (if p.desiredSize = 0 then ""
        else ",\"desiredSize\":" ++ toString p.desiredSize)
    ++ "\x7d"

/-- `api.ControlPlaneSpec` JSON: `type` stays at its zero value in the
repository, `instanceType`/`count`/`identity`/`config` are `omitempty`
zeros, `ha` is a plain bool field. -/
def jsonControlPlane (cp : ControlPlaneSpec) : String :=
  "\x7b\"type\":\"\",\"version\":" ++ jsonStr cp.version ++ ",\"ha\":false\x7d"

/-- Zero-value `api.NetworkSpec` JSON (`subnets` is `omitempty`). -/
def jsonNetworkZero : String :=
  "\x7b\"vpcCidr\":\"\",\"availabilityZones\":null,\"natGateway\":false,\"privateCluster\":false\x7d"

/-- A nil slice of worker pools renders as `null`, otherwise an array. -/
def jsonPools (pools : List WorkerPoolSpec) : String :=
  match pools with
  | [] => "null"
  | _ => "[" ++ String.intercalate "," (pools.map jsonWorkerPool) ++ "]"

/-- `api.ClusterSpec` JSON (`tags`/`config` are `omitempty` zeros). -/
def jsonClusterSpec (s : ClusterSpec) : String :=
  "\x7b\"provider\":" ++ jsonStr s.provider
    ++ ",\"region\":\"\",\"network\":" ++ jsonNetworkZero
    ++ ",\"controlPlane\":" ++ jsonControlPlane s.controlPlane
    ++ ",\"workerPools\":" ++ jsonPools s.workerPools
    ++ "\x7d"

/-- `api.ResourceMetadata` JSON: the timestamps stay at Go's zero time. -/
def jsonMetadata (m : ResourceMetadata) : String :=
  "\x7b\"name\":" ++ jsonStr m.name
    ++ ",\"createdAt\":\"0001-01-01T00:00:00Z\",\"updatedAt\":\"0001-01-01T00:00:00Z\"\x7d"

/-- Zero-value `api.ResourceStatus` JSON. -/
def jsonStatusZero : String :=
  "\x7b\"phase\":\"\"\x7d"

/-- `api.Cluster` JSON. -/
def jsonCluster (c : Cluster) : String :=
  "\x7b\"id\":" ++ jsonStr c.id
    ++ ",\"metadata\":" ++ jsonMetadata c.metadata
    ++ ",\"spec\":" ++ jsonClusterSpec c.spec
    ++ ",\"status\":" ++ jsonStatusZero
    ++ "\x7d"

/-- `api.NodePool` JSON. -/
def jsonNodePool (p : NodePool) : String :=
  "\x7b\"id\":" ++ jsonStr p.id
    ++ ",\"metadata\":" ++ jsonMetadata p.metadata
    ++ ",\"spec\":" ++ jsonWorkerPool p.spec
    ++ ",\"status\":" ++ jsonStatusZero
    ++ "\x7d"

/-- `json.Marshal` of an `engine.State` (struct keys are the untagged Go
field names; `Networks`/`Metadata` are never populated). -/
def jsonMarshalState (s : State) : String :=
  "\x7b\"Clusters\":" ++ jsonMapRaw (s.clusters.map fun p => (p.1, jsonCluster p.2))
    ++ ",\"NodePools\":" ++ jsonMapRaw (s.nodePools.map fun p => (p.1, jsonNodePool p.2))
    ++ ",\"Networks\":null,\"Metadata\":null\x7d"

/-- `snapshot.calculateChecksum`: `fmt.Sprintf("%x", len(data))` — the
lowercase-hex rendering of the serialized length, nothing more. -/
def calculateChecksum (s : State) : String :=
  String.mk (Nat.toDigits 16 (jsonMarshalState s).length)

/-- `snapshot.clustersEqual`: compares the JSON of the two specs. -/
def clustersEqual (a b : Cluster) : Bool :=
  jsonClusterSpec a.spec == jsonClusterSpec b.spec

/-- `snapshot.nodePoolsEqual`: compares the JSON of the two specs. -/
def nodePoolsEqual (a b : NodePool) : Bool :=
  jsonWorkerPool a.spec == jsonWorkerPool b.spec

/-! ## Snapshot manager (`pkg/snapshot/manager.go`)

Wall-clock instants are embedded as `Time` with seconds and a sub-second
part: `generateSnapshotID` formats `time.Now()` with the Go layout
`"20060102-150405"`, whose resolution is one second, so the generated id
is a function of the seconds part alone.  The snapshot directory is
embedded as an association list from snapshot id (the file name without
`.json`) to the stored snapshot; `os.WriteFile` replaces an existing
file, `os.Remove` deletes it, and `json.Unmarshal ∘ json.MarshalIndent`
round-trips every stored snapshot value. -/

/-- A wall-clock instant: whole seconds plus a sub-second remainder. -/
structure Time where
  sec : Nat
  sub : Nat
deriving DecidableEq, Repr

/-- `CreatedAt.After`: strict ordering of instants. -/
def timeAfter (a b : Time) : Bool :=
  b.sec < a.sec || (b.sec == a.sec && b.sub < a.sub)

/-- `snapshot.generateSnapshotID`: `"snapshot-" + now.Format("20060102-150405")`;
the layout has second resolution, embedded as the decimal seconds. -/
def generateSnapshotID (t : Time) : String :=
  "snapshot-" ++ toString t.sec

/-- `snapshot.TriggerReason`. -/
inductive TriggerReason where
  | manual
  | preUpgrade
  | preDelete
  | scheduled
  | preApply
  | driftRemediate
deriving DecidableEq, Repr

/-- `snapshot.SnapshotMetadata` (`Tags` is created empty and never
written to). -/
structure SnapshotMetadata where
  version : String
  createdBy : String
  triggerReason : TriggerReason
  clusterCount : Nat
  nodePoolCount : Nat
deriving DecidableEq, Repr

/-- `snapshot.Snapshot`. -/
structure Snapshot where
  id : String
  createdAt : Time
  description : String
  state : State
  metadata : SnapshotMetadata
  checksum : String
deriving DecidableEq, Repr

/-- The snapshot directory: file name stem (= snapshot id) to stored
snapshot. -/
abbrev SnapStore := List (String × Snapshot)

/-- `snapshot.saveSnapshot`: `os.WriteFile` to `<id>.json` replaces an
existing file with that name, otherwise creates it. -/
def storePut (store : SnapStore) (snap : Snapshot) : SnapStore :=
  if (store : List (String × Snapshot)).any (fun p => p.1 == snap.id) then
    (store : List (String × Snapshot)).map fun p =>
      if p.1 == snap.id then (snap.id, snap) else p
  else (store : List (String × Snapshot)) ++ [(snap.id, snap)]

/-- `os.Remove` of `<id>.json`. -/
def storeRemove (store : SnapStore) (id : String) : SnapStore :=
  (store : List (String × Snapshot)).filter fun p => p.1 != id

/-- `snapshot.(*Manager).LoadSnapshot`: read and unmarshal `<id>.json`. -/
def loadSnapshot (store : SnapStore) (id : String) : Option Snapshot :=
  mapGet id store

/-- `snapshot.(*Manager).CreateSnapshot`: reads the current persisted
state, stamps metadata and the checksum, saves under the generated id and
returns the snapshot. -/
def createSnapshot (store : SnapStore) (current : State) (now : Time)
    (description : String) (reason : TriggerReason) : Snapshot × SnapStore :=
  let snap : Snapshot :=
    { id := generateSnapshotID now
      createdAt := now
      description := description
      state := current
      metadata :=
        { version := "1.0", createdBy := "provctl", triggerReason := reason
          clusterCount := current.clusters.length
          nodePoolCount := current.nodePools.length }
      checksum := calculateChecksum current }
  (snap, storePut store snap)

/-- `snapshot.SnapshotInfo` (the fields `PruneSnapshots` reads). -/
structure SnapshotInfo where
  id : String
  createdAt : Time
deriving DecidableEq, Repr

/-- `snapshot.(*Manager).ListSnapshots`: loads every stored snapshot and
sorts newest-first with `less i j := s[i].CreatedAt.After(s[j].CreatedAt)`
(evaluated in this development only at pairwise-distinct creation times,
where every correct sort agrees with insertion sort). -/
def listSnapshots (store : SnapStore) : List SnapshotInfo :=
  sortBy (fun a b => timeAfter a.createdAt b.createdAt)
    ((store : List (String × Snapshot)).map fun p =>
      { id := p.2.id, createdAt := p.2.createdAt })

/-- `snapshot.RetentionPolicy` (`maxAge` in the same seconds unit as
`Time.sec`; 0 means unset, as in Go where the zero `Duration` disables
the age clause). -/
structure RetentionPolicy where
  maxAge : Nat
  maxCount : Nat
deriving DecidableEq, Repr

/-- `now.Sub(createdAt)` in whole seconds (used only under
`policy.maxAge > 0`). -/
def snapshotAge (now : Time) (created : Time) : Nat :=
  now.sec - created.sec

/-- Loop of `PruneSnapshots` over the newest-first listing: `n` is the
length of the original listing, which the loop never recomputes; a
snapshot is marked when it is older than `maxAge` (if set) or while
`n - len(deleted) > maxCount` (if set); marked snapshots are deleted and
their ids appended. -/
def pruneLoop (n : Nat) (policy : RetentionPolicy) (now : Time) :
    List SnapshotInfo → List String → SnapStore → List String × SnapStore
  | [], deleted, store => (deleted.reverse, store)
  | info :: rest, deleted, store =>
    let shouldDelete :=
      (decide (0 < policy.maxAge) && decide (policy.maxAge < snapshotAge now info.createdAt))
        || (decide (0 < policy.maxCount) && decide (policy.maxCount < n - deleted.length))
    if shouldDelete then
      pruneLoop n policy now rest (info.id :: deleted) (storeRemove store info.id)
    else
      pruneLoop n policy now rest deleted store

/-- `snapshot.(*Manager).PruneSnapshots`. -/
def pruneSnapshots (store : SnapStore) (now : Time) (policy : RetentionPolicy) :
    List String × SnapStore :=
  let snapshots := listSnapshots store
  pruneLoop snapshots.length policy now snapshots [] store

/-- `snapshot.ChangeAction`. -/
inductive ChangeAction where
  | add
  | modify
  | remove
deriving DecidableEq, Repr

/-- `snapshot.RestoreChange` (`Before`/`After` hold the specs the source
stores in the `interface{}` fields). -/
structure RestoreChange where
  action : ChangeAction
  resource : ResourceID
  before : Option ParamVal
  after : Option ParamVal
deriving DecidableEq, Repr

/-- `snapshot.(*Manager).calculateRestoreChanges`, in source order:
cluster adds/modifies, cluster removes, pool adds/modifies, pool
removes.  The source sets no `Provider` on the change's resource id. -/
def calculateRestoreChanges (snapState current : State) : List RestoreChange :=
  (snapState.clusters.filterMap fun p =>
    match mapGet p.1 current.clusters with
    | some currentCluster =>
      if clustersEqual p.2 currentCluster then none
      else some
        { action := .modify
          resource := { provider := "", kind := "Cluster", id := p.1, name := p.2.metadata.name }
          before := some (.clusterSpec currentCluster.spec)
          after := some (.clusterSpec p.2.spec) }
    | none => some
        { action := .add
          resource := { provider := "", kind := "Cluster", id := p.1, name := p.2.metadata.name }
          before := none
          after := some (.clusterSpec p.2.spec) })
  ++ (current.clusters.filterMap fun p =>
    match mapGet p.1 snapState.clusters with
    | some _ => none
    | none => some
        { action := .remove
          resource := { provider := "", kind := "Cluster", id := p.1, name := p.2.metadata.name }
          before := some (.clusterSpec p.2.spec)
          after := none })
  ++ (snapState.nodePools.filterMap fun p =>
    match mapGet p.1 current.nodePools with
    | some currentPool =>
      if nodePoolsEqual p.2 currentPool then none
      else some
        { action := .modify
          resource := { provider := "", kind := "NodePool", id := p.1, name := p.2.metadata.name }
          before := some (.poolSpec currentPool.spec)
          after := some (.poolSpec p.2.spec) }
    | none => some
        { action := .add
          resource := { provider := "", kind := "NodePool", id := p.1, name := p.2.metadata.name }
          before := none
          after := some (.poolSpec p.2.spec) })
  ++ (current.nodePools.filterMap fun p =>
    match mapGet p.1 snapState.nodePools with
    | some _ => none
    | none => some
        { action := .remove
          resource := { provider := "", kind := "NodePool", id := p.1, name := p.2.metadata.name }
          before := some (.poolSpec p.2.spec)
          after := none })

/-- `snapshot.RestoreResult` (RestoredAt omitted; not read anywhere). -/
structure RestoreResult where
  snapshotID : String
  backupID : String
  dryRun : Bool
  success : Bool
  changes : List RestoreChange
deriving DecidableEq, Repr

/-- `snapshot.(*Manager).RestoreSnapshot`: load, verify the checksum
(mismatch is fatal), diff against the current persisted state; a dry run
changes nothing, otherwise a pre-restore backup snapshot of the current
state is created (description "Pre-restore backup", trigger `manual`) and
the snapshot's state is saved as the new persisted state.  Returns the
result together with the snapshot directory and persisted state after the
call. -/
def restoreSnapshot (store : SnapStore) (current : State) (now : Time)
    (snapshotID : String) (dryRun : Bool) :
    Except String (RestoreResult × SnapStore × State) :=
  match loadSnapshot store snapshotID with
  | none => .error "failed to load snapshot"
  | some snap =>
    if calculateChecksum snap.state != snap.checksum then
      .error "snapshot checksum mismatch - data may be corrupted"
    else
      let changes := calculateRestoreChanges snap.state current
      if dryRun then
        .ok ({ snapshotID := snapshotID, backupID := "", dryRun := true
               success := false, changes := changes }, store, current)
      else
        let backup := createSnapshot store current now "Pre-restore backup" .manual
        .ok ({ snapshotID := snapshotID, backupID := backup.1.id, dryRun := false
               success := true, changes := changes }, backup.2, snap.state)

/-! ## Claim-specific predicates and concrete scenario inputs -/

/-- `true` when no element equal to `second` occurs strictly after an
element equal to `first` in the list. -/
def noAfter (first second : ActionType) : List ActionType → Bool
  | [] => true
  | t :: rest =>
    (if t == first then !(rest.contains second) else true) && noAfter first second rest

/-- The cross-kind ordering policy as claimed: every Create action appears
before every Update action, and every Update action appears before every
Delete action (no Create after an Update, no Update after a Delete). -/
def createsUpdatesDeletesOrdered (ts : List ActionType) : Bool :=
  noAfter .update .create ts && noAfter .delete .update ts

/-- A cluster with the given id, display name, provider and control-plane
version, all other specification fields at their zero values. -/
def mkCluster (id name provider version : String) : Cluster :=
  { id := id, metadata := { name := name }
    spec := { provider := provider, controlPlane := { version := version }
              workerPools := [] } }

/-- A node pool with the given id and name. -/
def mkNodePool (id name : String) : NodePool :=
  { id := id, metadata := { name := name }
    spec := { name := name, instanceType := "t3.medium", minSize := 1
              maxSize := 3, desiredSize := 2 } }

/-- The empty state. -/
def stateEmpty : State := { clusters := [], nodePools := [] }

/-- Desired state for the ordering counterexample: one cluster `cu`
needing an update, one new node pool `np1`. -/
def orderDesired : State :=
  { clusters := [("cu", mkCluster "cu" "cu-name" "aws" "1.29")]
    nodePools := [("np1", mkNodePool "np1" "pool-a")] }

/-- Actual state for the ordering counterexample: `cu` at an older
version, plus a cluster `cd` that is no longer desired. -/
def orderActual : State :=
  { clusters := [("cu", mkCluster "cu" "cu-name" "aws" "1.28"),
                 ("cd", mkCluster "cd" "cd-name" "aws" "1.28")]
    nodePools := [] }

/-- Actual state holding one node pool `np1` that the (empty) desired
state no longer wants. -/
def stateWithPool : State :=
  { clusters := [], nodePools := [("np1", mkNodePool "np1" "pool-a")] }

/-- The snapshot directory after five `CreateSnapshot` calls at seconds
1..5 (distinct creation times, as the retention claim requires). -/
def pruneStore : SnapStore :=
  [1, 2, 3, 4, 5].foldl
    (fun st t => (createSnapshot st stateEmpty { sec := t, sub := 0 } "Snapshot" .manual).2)
    []

/-- The retention policy of the claim: `maxCount` 3, `maxAge` unset. -/
def prunePolicy : RetentionPolicy := { maxAge := 0, maxCount := 3 }

/-- Desired state of the drift scenario: cluster `cluster-1` on provider
`aws` at control-plane version 1.29. -/
def scenarioDesired : State :=
  { clusters := [("cluster-1", mkCluster "cluster-1" "test-cluster" "aws" "1.29")]
    nodePools := [] }

/-- Live provider-reported state of the drift scenario: the same cluster
at version 1.28. -/
def scenarioLive : State :=
  { clusters := [("cluster-1", mkCluster "cluster-1" "test-cluster" "aws" "1.28")]
    nodePools := [] }

/-- The single drift the scenario's comparison logic produces. -/
def scenarioSkewDrift : ResourceDrift :=
  { resource := { provider := "aws", kind := "Cluster", id := "cluster-1"
                  name := "test-cluster" }
    driftType := .versionSkew, field := "controlPlane.version"
    expected := .s "1.29", actual := .s "1.28"
    severity := .high, remediatable := true }

/-- A remediatable drift whose type has no remediation branch, so
`remediateDrift` fails on it. -/
def remediateBadDrift : ResourceDrift :=
  { resource := { provider := "aws", kind := "Cluster", id := "c1", name := "c1-name" }
    driftType := .configChange, field := "config"
    expected := .s "x", actual := .s "y"
    severity := .low, remediatable := true }

/-- A remediatable version-skew drift, which `remediateDrift` handles. -/
def remediateGoodDrift : ResourceDrift :=
  { resource := { provider := "aws", kind := "Cluster", id := "c1", name := "c1-name" }
    driftType := .versionSkew, field := "controlPlane.version"
    expected := .s "1.29", actual := .s "1.28"
    severity := .high, remediatable := true }

/-- A report holding the failing item first and a succeeding item after
it. -/
def remediateReport : DriftReport :=
  { detectedAt := 0, hasDrift := true
    drifts := [remediateBadDrift, remediateGoodDrift]
    summary := computeSummary [remediateBadDrift, remediateGoodDrift] }

/-- An action on a registered provider (`aws`). -/
def applyActionOkInput : Action :=
  { type := .create
    resource := { provider := "aws", kind := "Cluster", id := "c1", name := "c1-name" }
    parameters := [("spec", .clusterSpec (mkCluster "c1" "c1-name" "aws" "1.29").spec)] }

/-- An action on an unregistered provider (`gcp`). -/
def applyActionMissingProvider : Action :=
  { type := .create
    resource := { provider := "gcp", kind := "Cluster", id := "c2", name := "c2-name" }
    parameters := [] }

/-- An event store whose `RecordEvent` always succeeds. -/
def recordAlwaysOk : Event → Option EngineError := fun _ => none

/-- Two distinct states whose JSON serializations have equal length: the
same cluster with display name `aa` versus `bb`. -/
def collStateA : State :=
  { clusters := [("c1", mkCluster "c1" "aa" "aws" "1.28")], nodePools := [] }

/-- See `collStateA`. -/
def collStateB : State :=
  { clusters := [("c1", mkCluster "c1" "bb" "aws" "1.28")], nodePools := [] }

/-- A snapshot directory holding one snapshot whose stored state was
replaced by `collStateB` while the stored checksum is the one computed
over `collStateA`. -/
def tamperedStore : SnapStore :=
  [("snapshot-7",
    { id := "snapshot-7", createdAt := { sec := 7, sub := 0 }, description := "pre-change"
      state := collStateB
      metadata := { version := "1.0", createdBy := "provctl", triggerReason := .manual
                    clusterCount := 1, nodePoolCount := 0 }
      checksum := calculateChecksum collStateA })]

/-- First of two `CreateSnapshot` calls within the same wall-clock
second (second 100, sub-second parts 10 and 500). -/
def overwriteFirst : Snapshot × SnapStore :=
  createSnapshot [] collStateA { sec := 100, sub := 10 } "first" .manual

/-- Second `CreateSnapshot` call, in the same second, with a different
persisted state. -/
def overwriteSecond : Snapshot × SnapStore :=
  createSnapshot overwriteFirst.2 collStateB { sec := 100, sub := 500 } "second" .manual

/-! ## Helper lemmas -/

/-- A present key is found by `mapGet`. -/
theorem mapGet_isSome_of_mem {α} {l : List (String × α)} {k : String} {v : α}
    (h : (k, v) ∈ l) : (mapGet k l).isSome = true := by
  induction l with
  | nil => cases h
  | cons hd tl ih =>
    obtain ⟨k', v'⟩ := hd
    cases h with
    | head => simp [mapGet]
    | tail _ h' =>
      by_cases hk : k' = k
      · simp [mapGet, hk]
      · simp [mapGet, hk, ih h']

/-- With duplicate-free keys, `mapGet` returns the unique binding. -/
theorem mapGet_mem_nodup {α} {l : List (String × α)}
    (hnd : (l.map Prod.fst).Nodup) {k : String} {v : α} (h : (k, v) ∈ l) :
    mapGet k l = some v := by
  induction l with
  | nil => cases h
  | cons hd tl ih =>
    obtain ⟨k', v'⟩ := hd
    simp only [List.map_cons, List.nodup_cons] at hnd
    cases h with
    | head => simp [mapGet]
    | tail _ h' =>
      have hk : k' ≠ k := by
        intro e
        subst e
        exact hnd.1 (List.mem_map_of_mem Prod.fst h')
      simp [mapGet, hk, ih hnd.2 h']

/-- Replacing every entry keyed `s.id` puts `s` at the first such entry. -/
theorem mapGet_replaceKey {l : List (String × Snapshot)} {s : Snapshot}
    (h : l.any (fun p => p.1 == s.id) = true) :
    mapGet s.id (l.map fun p => if p.1 == s.id then (s.id, s) else p) = some s := by
  induction l with
  | nil => simp at h
  | cons hd tl ih =>
    obtain ⟨k', v'⟩ := hd
    by_cases hk : k' = s.id
    · have hhead :
          (if ((k', v').1 == s.id) = true then ((s.id, s) : String × Snapshot) else (k', v'))
            = (s.id, s) := by
        simp [hk]
      rw [List.map_cons, hhead]
      simp [mapGet]
    · have hhead :
          (if ((k', v').1 == s.id) = true then ((s.id, s) : String × Snapshot) else (k', v'))
            = (k', v') := by
        simp [hk]
      rw [List.map_cons, hhead]
      simp only [List.any_cons] at h
      rw [show ((k', v').1 == s.id) = false by simp [hk]] at h
      rw [Bool.false_or] at h
      simp only [mapGet]
      rw [show (k' == s.id) = false by simp [hk]]
      simpa using ih h

/-- Appending a fresh entry makes its key found, with the new value. -/
theorem mapGet_append_single_self {l : List (String × Snapshot)} {s : Snapshot}
    (h : l.any (fun p => p.1 == s.id) = false) :
    mapGet s.id (l ++ [(s.id, s)]) = some s := by
  induction l with
  | nil => simp [mapGet]
  | cons hd tl ih =>
    obtain ⟨k', v'⟩ := hd
    simp only [List.any_cons, Bool.or_eq_false_iff] at h
    have hk : (k' == s.id) = false := by simpa using h.1
    rw [List.cons_append]
    simp only [mapGet]
    rw [hk]
    simpa using ih h.2

/-- `saveSnapshot` stores the snapshot under its id. -/
theorem mapGet_storePut_self (store : SnapStore) (s : Snapshot) :
    mapGet s.id (storePut store s) = some s := by
  unfold storePut
  cases ha : store.any (fun p => p.1 == s.id) with
  | true =>
    rw [if_pos rfl]
    exact mapGet_replaceKey ha
  | false =>
    rw [if_neg Bool.false_ne_true]
    exact mapGet_append_single_self ha

/-- Replacing entries keyed `s.id` leaves every other key unchanged. -/
theorem mapGet_replaceKey_ne {s : Snapshot} {k : String} (h : k ≠ s.id)
    (l : List (String × Snapshot)) :
    mapGet k (l.map fun p => if p.1 == s.id then (s.id, s) else p) = mapGet k l := by
  induction l with
  | nil => rfl
  | cons hd tl ih =>
    obtain ⟨k', v'⟩ := hd
    by_cases hk : k' = s.id
    · have hhead :
          (if ((k', v').1 == s.id) = true then ((s.id, s) : String × Snapshot) else (k', v'))
            = (s.id, s) := by
        simp [hk]
      rw [List.map_cons, hhead]
      simp only [mapGet]
      rw [show (s.id == k) = false by simp [Ne.symm h]]
      rw [show (k' == k) = false by simp [hk, Ne.symm h]]
      simpa using ih
    · have hhead :
          (if ((k', v').1 == s.id) = true then ((s.id, s) : String × Snapshot) else (k', v'))
            = (k', v') := by
        simp [hk]
      rw [List.map_cons, hhead]
      simp only [mapGet]
      cases hkk : (k' == k) with
      | true => rfl
      | false => simpa using ih

/-- Appending an entry with a different key leaves `mapGet` unchanged. -/
theorem mapGet_append_single_ne {s : Snapshot} {k : String} (h : k ≠ s.id)
    (l : List (String × Snapshot)) :
    mapGet k (l ++ [(s.id, s)]) = mapGet k l := by
  induction l with
  | nil =>
    show mapGet k [(s.id, s)] = mapGet k []
    simp only [mapGet]
    rw [show (s.id == k) = false by simp [Ne.symm h]]
    rfl
  | cons hd tl ih =>
    obtain ⟨k', v'⟩ := hd
    rw [List.cons_append]
    simp only [mapGet]
    cases hkk : (k' == k) with
    | true => rfl
    | false => simpa using ih

/-- `saveSnapshot` leaves every snapshot stored under another id intact. -/
theorem mapGet_storePut_ne (store : SnapStore) (s : Snapshot) {k : String}
    (h : k ≠ s.id) :
    mapGet k (storePut store s) = mapGet k store := by
  unfold storePut
  cases ha : store.any (fun p => p.1 == s.id) with
  | true =>
    rw [if_pos rfl]
    exact mapGet_replaceKey_ne h store
  | false =>
    rw [if_neg Bool.false_ne_true]
    exact mapGet_append_single_ne h store

/-- Diffing a state against itself emits no cluster Create action. -/
theorem clusterCreateActions_self (S : State) : clusterCreateActions S S = [] := by
  unfold clusterCreateActions
  rw [List.filterMap_eq_nil_iff]
  intro p hp
  have hs : (mapGet p.1 S.clusters).isSome = true := by
    refine mapGet_isSome_of_mem (v := p.2) ?_
    simpa using hp
  cases hmg : mapGet p.1 S.clusters with
  | none => rw [hmg] at hs; cases hs
  | some w => simp [hmg]

/-- With duplicate-free cluster ids, diffing a state against itself emits
no cluster Update action (`needsUpdate c c` is `false`). -/
theorem clusterUpdateActions_self (S : State)
    (hnd : (S.clusters.map Prod.fst).Nodup) : clusterUpdateActions S S = [] := by
  unfold clusterUpdateActions
  rw [List.filterMap_eq_nil_iff]
  intro p hp
  have hmg : mapGet p.1 S.clusters = some p.2 := by
    refine mapGet_mem_nodup hnd ?_
    simpa using hp
  simp [hmg, needsUpdate]

/-- Diffing a state against itself emits no cluster Delete action. -/
theorem clusterDeleteActions_self (S : State) : clusterDeleteActions S S = [] := by
  unfold clusterDeleteActions
  rw [List.filterMap_eq_nil_iff]
  intro p hp
  have hs : (mapGet p.1 S.clusters).isSome = true := by
    refine mapGet_isSome_of_mem (v := p.2) ?_
    simpa using hp
  cases hmg : mapGet p.1 S.clusters with
  | none => rw [hmg] at hs; cases hs
  | some w => simp [hmg]

/-- Diffing a state against itself emits no node pool Create action. -/
theorem nodePoolCreateActions_self (S : State) : nodePoolCreateActions S S = [] := by
  unfold nodePoolCreateActions
  rw [List.filterMap_eq_nil_iff]
  intro p hp
  have hs : (mapGet p.1 S.nodePools).isSome = true := by
    refine mapGet_isSome_of_mem (v := p.2) ?_
    simpa using hp
  cases hmg : mapGet p.1 S.nodePools with
  | none => rw [hmg] at hs; cases hs
  | some w => simp [hmg]

/-- Every emitted cluster Create action has type Create and kind Cluster. -/
theorem clusterCreateActions_shape {d a : State} {x : Action}
    (h : x ∈ clusterCreateActions d a) :
    x.type = .create ∧ x.resource.kind = "Cluster" := by
  unfold clusterCreateActions at h
  rw [List.mem_filterMap] at h
  obtain ⟨p, -, hf⟩ := h
  cases hmg : mapGet p.1 a.clusters with
  | none =>
    rw [hmg] at hf
    cases hf
    exact ⟨rfl, rfl⟩
  | some w =>
    rw [hmg] at hf
    cases hf

/-- Every emitted cluster Update action has type Update and kind Cluster. -/
theorem clusterUpdateActions_shape {d a : State} {x : Action}
    (h : x ∈ clusterUpdateActions d a) :
    x.type = .update ∧ x.resource.kind = "Cluster" := by
  unfold clusterUpdateActions at h
  rw [List.mem_filterMap] at h
  obtain ⟨p, -, hf⟩ := h
  cases hmg : mapGet p.1 a.clusters with
  | none =>
    rw [hmg] at hf
    cases hf
  | some w =>
    rw [hmg] at hf
    by_cases hu : needsUpdate p.2 w
    · simp only [hu, if_true] at hf
      cases hf
      exact ⟨rfl, rfl⟩
    · simp only [hu, Bool.false_eq_true, if_false] at hf
      cases hf

/-- Every emitted cluster Delete action has type Delete and kind Cluster. -/
theorem clusterDeleteActions_shape {d a : State} {x : Action}
    (h : x ∈ clusterDeleteActions d a) :
    x.type = .delete ∧ x.resource.kind = "Cluster" := by
  unfold clusterDeleteActions at h
  rw [List.mem_filterMap] at h
  obtain ⟨p, -, hf⟩ := h
  cases hmg : mapGet p.1 d.clusters with
  | none =>
    rw [hmg] at hf
    cases hf
    exact ⟨rfl, rfl⟩
  | some w =>
    rw [hmg] at hf
    cases hf

/-- Every emitted node pool action has type Create and kind NodePool. -/
theorem nodePoolCreateActions_shape {d a : State} {x : Action}
    (h : x ∈ nodePoolCreateActions d a) :
    x.type = .create ∧ x.resource.kind = "NodePool" := by
  unfold nodePoolCreateActions at h
  rw [List.mem_filterMap] at h
  obtain ⟨p, -, hf⟩ := h
  cases hmg : mapGet p.1 a.nodePools with
  | none =>
    rw [hmg] at hf
    cases hf
    exact ⟨rfl, rfl⟩
  | some w =>
    rw [hmg] at hf
    cases hf

/-- `Apply` commits exactly when it returns no error. -/
theorem applyGo_committed_iff (registered : List String)
    (record : Event → Option EngineError) (actions : List Action) :
    (applyGo registered record actions).committed = true
      ↔ (applyGo registered record actions).err = none := by
  induction actions with
  | nil => simp [applyGo]
  | cons a rest ih =>
    cases he : executeAction registered a with
    | some e => simp [applyGo, he]
    | none =>
      cases hr : record (mkEvent a) with
      | some e => simp [applyGo, he, hr]
      | none => simpa [applyGo, he, hr] using ih

/-- `Apply` returns no error exactly when every action of the plan both
dispatches and has its event recorded without error. -/
theorem applyGo_err_none_iff (registered : List String)
    (record : Event → Option EngineError) (actions : List Action) :
    (applyGo registered record actions).err = none
      ↔ ∀ a ∈ actions, actionOk registered record a := by
  induction actions with
  | nil => simp [applyGo]
  | cons a rest ih =>
    cases he : executeAction registered a with
    | some e => simp [applyGo, he, actionOk]
    | none =>
      cases hr : record (mkEvent a) with
      | some e => simp [applyGo, he, hr, actionOk]
      | none =>
        simp only [applyGo, he, hr]
        rw [List.forall_mem_cons]
        constructor
        · intro h
          exact ⟨⟨he, hr⟩, ih.mp h⟩
        · intro h
          exact ih.mpr h.2

/-- On a fully successful plan, every action is executed and every event
recorded, in plan order. -/
theorem applyGo_success_shape (registered : List String)
    (record : Event → Option EngineError) (actions : List Action)
    (h : (applyGo registered record actions).err = none) :
    (applyGo registered record actions).executed = actions
      ∧ (applyGo registered record actions).events = actions.map mkEvent := by
  induction actions with
  | nil => simp [applyGo]
  | cons a rest ih =>
    cases he : executeAction registered a with
    | some e => simp [applyGo, he] at h
    | none =>
      cases hr : record (mkEvent a) with
      | some e => simp [applyGo, he, hr] at h
      | none =>
        have hrest : (applyGo registered record rest).err = none := by
          simpa [applyGo, he, hr] using h
        have := ih hrest
        simp [applyGo, he, hr, this.1, this.2]

/-- Fail-fast on a failing dispatch: if every action before `a` succeeds
fully and `a`'s dispatch errors, the whole run returns that error, the
actions after the failing one are not executed, no event is recorded for
the failing action or any later one, and the transaction is rolled back. -/
theorem applyGo_prefix_dispatch_fail (registered : List String)
    (record : Event → Option EngineError) (pre : List Action) (a : Action)
    (post : List Action) (e : EngineError)
    (hpre : ∀ b ∈ pre, actionOk registered record b)
    (ha : executeAction registered a = some e) :
    applyGo registered record (pre ++ a :: post)
      = { executed := pre, events := pre.map mkEvent, committed := false
          err := some e } := by
  induction pre with
  | nil => simp [applyGo, ha]
  | cons b rest ih =>
    have hb := hpre b (by simp)
    have hrest : ∀ c ∈ rest, actionOk registered record c := by
      intro c hc
      exact hpre c (by simp [hc])
    simp [List.cons_append, applyGo, hb.1, hb.2, ih hrest]

/-- Fail-fast on a failing event write: the failing action itself was
dispatched, but its event and everything after it are absent and the
transaction is rolled back. -/
theorem applyGo_prefix_record_fail (registered : List String)
    (record : Event → Option EngineError) (pre : List Action) (a : Action)
    (post : List Action) (e : EngineError)
    (hpre : ∀ b ∈ pre, actionOk registered record b)
    (ha : executeAction registered a = none)
    (hr : record (mkEvent a) = some e) :
    applyGo registered record (pre ++ a :: post)
      = { executed := pre ++ [a], events := pre.map mkEvent, committed := false
          err := some e } := by
  induction pre with
  | nil => simp [applyGo, ha, hr]
  | cons b rest ih =>
    have hb := hpre b (by simp)
    have hrest : ∀ c ∈ rest, actionOk registered record c := by
      intro c hc
      exact hpre c (by simp [hc])
    simp [List.cons_append, applyGo, hb.1, hb.2, ih hrest]

/-! ## Claim theorems -/

/-- Claim C1 (code bug): against a store of 5 snapshots with distinct
creation times and policy `maxCount = 3` (no `maxAge`), `PruneSnapshots`
deletes the 2 NEWEST snapshots (`snapshot-5`, `snapshot-4`, the first two
of the newest-first listing) and keeps the 3 oldest — not, as the claim
and the function's own "keep only N most recent" comment state, the 2
oldest: the count clause fires while walking the newest-first list from
its head. -/
theorem pruneSnapshots_maxCount_deletes_newest :
    (listSnapshots pruneStore).map SnapshotInfo.id
      = ["snapshot-5", "snapshot-4", "snapshot-3", "snapshot-2", "snapshot-1"]
    ∧ (pruneSnapshots pruneStore { sec := 10, sub := 0 } prunePolicy).1
      = ["snapshot-5", "snapshot-4"]
    ∧ ((pruneSnapshots pruneStore { sec := 10, sub := 0 } prunePolicy).2).map Prod.fst
      = ["snapshot-1", "snapshot-2", "snapshot-3"] := by
  decide

/-- Claim C2 (counterexample): with one cluster to update, one cluster to
delete and one node pool to create, `GeneratePlan` lists the actions as
Update, Delete, Create — the node pool Create comes after both the Update
and the Delete, so creates are not listed before updates and deletes
across resource kinds. -/
theorem generatePlan_cross_kind_order_counterexample :
    (generatePlanActions orderDesired orderActual).map Action.type
      = [.update, .delete, .create]
    ∧ createsUpdatesDeletesOrdered
        ((generatePlanActions orderDesired orderActual).map Action.type) = false := by
  decide

/-- Claim C2 (amended): the plan is four ordered segments — cluster
Creates, then cluster Updates, then cluster Deletes, then node pool
Creates (the only node pool actions); the claimed create-before-update-
before-delete ordering holds within the Cluster kind, while node pool
Creates follow every cluster action. -/
theorem generatePlan_segment_order (d a : State) :
    ∃ cs us ds ps,
      generatePlanActions d a = cs ++ us ++ ds ++ ps
      ∧ (∀ x ∈ cs, x.type = .create ∧ x.resource.kind = "Cluster")
      ∧ (∀ x ∈ us, x.type = .update ∧ x.resource.kind = "Cluster")
      ∧ (∀ x ∈ ds, x.type = .delete ∧ x.resource.kind = "Cluster")
      ∧ (∀ x ∈ ps, x.type = .create ∧ x.resource.kind = "NodePool") :=
  ⟨_, _, _, _, rfl,
    fun _ hx => clusterCreateActions_shape hx,
    fun _ hx => clusterUpdateActions_shape hx,
    fun _ hx => clusterDeleteActions_shape hx,
    fun _ hx => nodePoolCreateActions_shape hx⟩

/-- Witness for the amended C2 theorem at the counterexample input. -/
theorem generatePlan_segment_order_witness :
    ∃ cs us ds ps,
      generatePlanActions orderDesired orderActual = cs ++ us ++ ds ++ ps
      ∧ (∀ x ∈ cs, x.type = .create ∧ x.resource.kind = "Cluster")
      ∧ (∀ x ∈ us, x.type = .update ∧ x.resource.kind = "Cluster")
      ∧ (∀ x ∈ ds, x.type = .delete ∧ x.resource.kind = "Cluster")
      ∧ (∀ x ∈ ps, x.type = .create ∧ x.resource.kind = "NodePool") :=
  generatePlan_segment_order orderDesired orderActual

/-- Claim C3 (code bug): a node pool present in the actual state and
absent from the desired state produces NO action at all — `GeneratePlan`
emits Delete actions for clusters only, so the claimed symmetric
NodePool Delete (and Update) is missing. -/
theorem generatePlan_nodepool_delete_omitted :
    generatePlan stateEmpty stateWithPool = .ok { actions := [] }
    ∧ (mapGet "np1" stateWithPool.nodePools).isSome = true
    ∧ (mapGet "np1" stateEmpty.nodePools).isSome = false :=
  ⟨rfl, rfl, rfl⟩

/-- Claim C4 (confirmed): for any state `S` whose cluster map has
duplicate-free keys (true of every Go map), `GeneratePlan(S, S)` returns
an empty plan and no error. -/
theorem generatePlan_self_identity (S : State)
    (hnd : (S.clusters.map Prod.fst).Nodup) :
    generatePlan S S = .ok { actions := [] } := by
  unfold generatePlan generatePlanActions
  rw [clusterCreateActions_self, clusterUpdateActions_self S hnd,
    clusterDeleteActions_self, nodePoolCreateActions_self]
  rfl

/-- Witness for C4 at a concrete one-cluster state. -/
theorem generatePlan_self_identity_witness :
    (scenarioDesired.clusters.map Prod.fst).Nodup
    ∧ generatePlan scenarioDesired scenarioDesired = .ok { actions := [] } :=
  ⟨by decide, generatePlan_self_identity scenarioDesired (by decide)⟩

/-- Claim C5 (code bug): on the claimed scenario (desired `cluster-1` at
1.29 on provider `aws`, live copy at 1.28) `DetectDrift` reports no drift
at all, because `getAllProviders` returns an empty map, never the
registered providers; the detector's own comparison logic — were it
reached with the live state — yields exactly the single high-severity
remediatable `version_skew` drift on `controlPlane.version` that the
claim describes. -/
theorem detectDrift_scenario_reports_nothing :
    (detectDrift 0 scenarioDesired).drifts = []
    ∧ (detectDrift 0 scenarioDesired).hasDrift = false
    ∧ clusterDriftsFor "aws" scenarioDesired scenarioLive = [scenarioSkewDrift] := by
  decide

/-- Claim C6 (code bug): `Remediate` does continue past a failing item
(the later `version_skew` item is still remediated), but it returns `nil`
unconditionally: the failing item is only logged, and the caller-visible
result identifies no failed items, i.e. a bare success is returned even
though one item failed. -/
theorem remediate_swallows_item_failure :
    remediateGo ["aws"] remediateReport
      = { remediated := 1, failedItems := [remediateBadDrift], result := none }
    ∧ (remediateDrift ["aws"] remediateBadDrift).isSome = true := by
  decide

/-- Claim C7 (confirmed): `Apply` commits exactly when every action
dispatch and every event write succeeded; on the first failing dispatch
(in particular an unregistered provider, `ProviderNotFound`) or the first
failing event write it returns that error, executes no later action,
records no event for the failing action or any later one, and the
transaction is rolled back. -/
theorem apply_transactional_commit (registered : List String)
    (record : Event → Option EngineError) (actions : List Action) :
    ((applyGo registered record actions).committed = true
      ↔ (applyGo registered record actions).err = none)
    ∧ ((applyGo registered record actions).err = none
      ↔ ∀ a ∈ actions, actionOk registered record a)
    ∧ (∀ pre a post, actions = pre ++ a :: post →
        (∀ b ∈ pre, actionOk registered record b) →
        executeAction registered a = some errProviderNotFound →
        applyGo registered record actions
          = { executed := pre, events := pre.map mkEvent, committed := false
              err := some errProviderNotFound })
    ∧ (∀ pre a post e, actions = pre ++ a :: post →
        (∀ b ∈ pre, actionOk registered record b) →
        executeAction registered a = none →
        record (mkEvent a) = some e →
        applyGo registered record actions
          = { executed := pre ++ [a], events := pre.map mkEvent, committed := false
              err := some e }) := by
  refine ⟨applyGo_committed_iff registered record actions,
    applyGo_err_none_iff registered record actions, ?_, ?_⟩
  · intro pre a post hdec hpre ha
    rw [hdec]
    exact applyGo_prefix_dispatch_fail registered record pre a post _ hpre ha
  · intro pre a post e hdec hpre ha hr
    rw [hdec]
    exact applyGo_prefix_record_fail registered record pre a post e hpre ha hr

/-- Witness for C7: a plan whose second action names the unregistered
provider `gcp` yields `ProviderNotFound`, an event for the first action
only, and a rolled-back transaction. -/
theorem apply_transactional_commit_witness :
    applyGo ["aws"] recordAlwaysOk [applyActionOkInput, applyActionMissingProvider]
      = { executed := [applyActionOkInput], events := [mkEvent applyActionOkInput]
          committed := false, err := some errProviderNotFound } := by
  have h := (apply_transactional_commit ["aws"] recordAlwaysOk
    [applyActionOkInput, applyActionMissingProvider]).2.2.1
    [applyActionOkInput] applyActionMissingProvider []
    rfl (by decide) (by decide)
  simpa using h

/-- Claim C8 (confirmed): after a successful `CreateSnapshot`, loading
the returned id yields a snapshot whose `State` equals the state at
creation time field for field, and recomputing the checksum over that
state reproduces the stored checksum. -/
theorem snapshot_roundtrip (store : SnapStore) (current : State) (now : Time)
    (description : String) (reason : TriggerReason) :
    loadSnapshot (createSnapshot store current now description reason).2
        (createSnapshot store current now description reason).1.id
      = some (createSnapshot store current now description reason).1
    ∧ (createSnapshot store current now description reason).1.state = current
    ∧ calculateChecksum (createSnapshot store current now description reason).1.state
      = (createSnapshot store current now description reason).1.checksum := by
  refine ⟨?_, rfl, rfl⟩
  exact mapGet_storePut_self store _

/-- Claim C9 (counterexample): two successful `CreateSnapshot` calls
within the same wall-clock second (second 100, sub-second offsets 10 and
500) generate the same id, and the later call overwrites the earlier
snapshot: loading the first call's id returns the second call's snapshot,
which differs from the first. -/
theorem createSnapshot_same_second_overwrite :
    overwriteFirst.1.id = overwriteSecond.1.id
    ∧ loadSnapshot overwriteSecond.2 overwriteFirst.1.id = some overwriteSecond.1
    ∧ decide (overwriteFirst.1 = overwriteSecond.1) = false := by
  decide

/-- Claim C9 (amended): snapshots are immutable once written EXCEPT that
a later `CreateSnapshot` whose creation time falls in the same second
reuses the id and overwrites the record; whenever the two generated
(second-granularity, timestamp-derived) ids differ, the later call leaves
the earlier snapshot intact and both remain loadable. -/
theorem createSnapshot_distinct_ids_preserve (store : SnapStore)
    (sa sb : State) (ta tb : Time) (da db : String) (ra rb : TriggerReason)
    (h : generateSnapshotID ta ≠ generateSnapshotID tb) :
    ((createSnapshot store sa ta da ra).1.id
        ≠ (createSnapshot (createSnapshot store sa ta da ra).2 sb tb db rb).1.id)
    ∧ loadSnapshot (createSnapshot (createSnapshot store sa ta da ra).2 sb tb db rb).2
        (createSnapshot store sa ta da ra).1.id
      = some (createSnapshot store sa ta da ra).1
    ∧ loadSnapshot (createSnapshot (createSnapshot store sa ta da ra).2 sb tb db rb).2
        (createSnapshot (createSnapshot store sa ta da ra).2 sb tb db rb).1.id
      = some (createSnapshot (createSnapshot store sa ta da ra).2 sb tb db rb).1 := by
  refine ⟨h, ?_, ?_⟩
  · exact (mapGet_storePut_ne (createSnapshot store sa ta da ra).2 _ h).trans
      (mapGet_storePut_self store _)
  · exact mapGet_storePut_self _ _

/-- Witness for the amended C9 theorem: creation times in seconds 1 and 2
generate distinct ids and neither snapshot clobbers the other. -/
theorem createSnapshot_distinct_ids_preserve_witness :
    (generateSnapshotID { sec := 1, sub := 0 } ≠ generateSnapshotID { sec := 2, sub := 0 })
    ∧ (((createSnapshot [] collStateA { sec := 1, sub := 0 } "first" .manual).1.id
        ≠ (createSnapshot (createSnapshot [] collStateA { sec := 1, sub := 0 } "first" .manual).2
            collStateB { sec := 2, sub := 0 } "second" .manual).1.id)
      ∧ loadSnapshot (createSnapshot (createSnapshot [] collStateA { sec := 1, sub := 0 } "first" .manual).2
            collStateB { sec := 2, sub := 0 } "second" .manual).2
          (createSnapshot [] collStateA { sec := 1, sub := 0 } "first" .manual).1.id
        = some (createSnapshot [] collStateA { sec := 1, sub := 0 } "first" .manual).1
      ∧ loadSnapshot (createSnapshot (createSnapshot [] collStateA { sec := 1, sub := 0 } "first" .manual).2
            collStateB { sec := 2, sub := 0 } "second" .manual).2
          (createSnapshot (createSnapshot [] collStateA { sec := 1, sub := 0 } "first" .manual).2
            collStateB { sec := 2, sub := 0 } "second" .manual).1.id
        = some (createSnapshot (createSnapshot [] collStateA { sec := 1, sub := 0 } "first" .manual).2
            collStateB { sec := 2, sub := 0 } "second" .manual).1) :=
  ⟨by decide,
    createSnapshot_distinct_ids_preserve [] collStateA collStateB
      { sec := 1, sub := 0 } { sec := 2, sub := 0 } "first" "second" .manual .manual
      (by decide)⟩

/-- Claim C10 (confirmed): the length-based checksum collides — the two
distinct states differing only in a same-length cluster name share a
checksum — and a snapshot whose stored state was swapped for the
colliding state still passes `RestoreSnapshot`'s checksum verification,
so the restore proceeds instead of failing with an integrity error. -/
theorem calculateChecksum_collision_restore_proceeds :
    decide (collStateA = collStateB) = false
    ∧ calculateChecksum collStateA = calculateChecksum collStateB
    ∧ (restoreSnapshot tamperedStore stateEmpty { sec := 8, sub := 0 }
        "snapshot-7" true).isOk = true := by
  decide

end ClusterApi
